import Mathlib

/-!
Verification development for the fx-simple backend (src/backend/routes/rates.py,
interest.py, ai.py).  The Python routes are shallowly embedded: network calls
become explicit outcome parameters, the module-level dict caches become
association lists threaded through the functions, datetimes become natural
numbers counting whole seconds, and rates are modelled as rationals.
-/

namespace FxSimple

/-! ## TTL caches

Every cache in the system (rate, ECB, FRED, AI) stores entries of the shape
`{"data": value, "cached_at": now}` and tests freshness with
`(now - cached["cached_at"]).seconds < ttl`.  For a non-negative whole-second
timedelta, the Python `.seconds` attribute is the seconds component after
normalising into days, i.e. the total age modulo 86400. -/

/-- Python `timedelta.seconds` of a non-negative whole-second delta. -/
def tdSeconds (age : Nat) : Nat := age % 86400

structure CacheEntry (α : Type) where
  data : α
  cached_at : Nat
deriving Repr, DecidableEq

/-- The freshness test `(now - cached["cached_at"]).seconds < ttl` shared by all
four cache sites (rates.py lines 71, 173, 240; ai.py line 384). -/
def cacheFresh (now cachedAt ttl : Nat) : Bool :=
  tdSeconds (now - cachedAt) < ttl

/-- Cache lookup: return the stored data iff the key is present and the entry
passes the freshness test; otherwise behave as a miss. -/
def cacheGet {α : Type} (cache : List (String × CacheEntry α)) (key : String)
    (now ttl : Nat) : Option α :=
  match cache.find? (fun p => p.1 == key) with
  | some (_, e) => if cacheFresh now e.cached_at ttl then some e.data else none
  | none => none

def cache_ttl : Nat := 300
def ecb_cache_ttl : Nat := 3600
def fred_cache_ttl : Nat := 3600
def ai_cache_ttl : Nat := 3600

/-! ## Spot rate (rates.py, `get_current_rate`) -/

/-- Outcome of one upstream HTTP call: either a raised exception or a response
with a status code and an already-decoded body. -/
inductive HttpOutcome (α : Type) where
  | exn
  | response (status : Nat) (body : α)
deriving Repr, DecidableEq

structure SpotResult where
  base : String
  quote : String
  rate : ℚ
  timestamp : String
  source : String
deriving Repr, DecidableEq

/-- Environment of `get_current_rate`: the configured commercial API key
(`"demo"` when the variable is unset), the commercial call outcome (body:
`data["conversion_rate"]`), and the Frankfurter call outcome (body:
`data["rates"].get(quote)`, `none` when the quote key is missing). -/
structure SpotEnv where
  exchange_rate_api_key : String
  commercial : HttpOutcome ℚ
  frankfurter : HttpOutcome (Option ℚ)
deriving Repr, DecidableEq

/-- The Frankfurter fallback block inside `get_current_rate`: a 200 response
yields a result with `data["rates"].get(quote, 0)` as the rate; a non-200
response falls off the end of the `try` block and an exception reaches the
`except`, both ending in the final `raise HTTPException(503)`. -/
def frankfurterFetch (env : SpotEnv) (base quote ts : String) :
    Except Unit SpotResult :=
  match env.frankfurter with
  | .exn => .error ()
  | .response s body =>
    if s = 200 then
      .ok ⟨base, quote, body.getD 0, ts, "Frankfurter (ECB)"⟩
    else .error ()

/-- Network part of `get_current_rate` (rates.py lines 243-279).  The whole
body sits in a single `try`: when a key is configured the commercial API is
tried first, a non-200 status falls through to Frankfurter, but a raised
exception jumps to the `except` clause and the 503 without trying
Frankfurter. -/
def get_current_rate_net (env : SpotEnv) (base quote ts : String) :
    Except Unit SpotResult :=
  if env.exchange_rate_api_key ≠ "demo" then
    match env.commercial with
    | .exn => .error ()
    | .response s body =>
      if s = 200 then .ok ⟨base, quote, body, ts, "ExchangeRate-API"⟩
      else frankfurterFetch env base quote ts
  else frankfurterFetch env base quote ts

/-- `get_current_rate` with its cache (rates.py lines 232-279): a fresh cache
hit is returned as-is; otherwise the network path runs and a success is stored
under the key `f"{base}_{quote}"`. -/
def get_current_rate (cache : List (String × CacheEntry SpotResult)) (now : Nat)
    (env : SpotEnv) (base quote ts : String) :
    Except Unit (SpotResult × List (String × CacheEntry SpotResult)) :=
  let key := base ++ "_" ++ quote
  match cacheGet cache key now cache_ttl with
  | some r => .ok (r, cache)
  | none =>
    match get_current_rate_net env base quote ts with
    | .ok r => .ok (r, (key, ⟨r, now⟩) :: cache)
    | .error e => .error e

/-! ## ECB reference rates (rates.py, `get_ecb_rate`) -/

/-- A normalized `{rate, date, source}` record as returned by the adapters. -/
structure RateQuote where
  rate : ℚ
  date : String
  source : String
deriving Repr, DecidableEq

/-- The parsed ECB daily document: the EUR-anchored rate table (which
`fetch_ecb_rates` always seeds with `"EUR" -> 1.0`) and the reference date. -/
structure EcbData where
  rates : List (String × ℚ)
  date : String
deriving Repr, DecidableEq

/-- Python `rates.get(c)` over the parsed table. -/
def tableLookup (rates : List (String × ℚ)) (c : String) : Option ℚ :=
  (rates.find? (fun p => p.1 == c)).map (fun p => p.2)

/-- `get_ecb_rate` (rates.py lines 111-140): `fetch_ecb_rates` returning `None`
propagates as unavailable; otherwise the elif chain resolves the pair against
the EUR-anchored table. -/
def get_ecb_rate (fetched : Option EcbData) (base quote : String) :
    Option RateQuote :=
  match fetched with
  | none => none
  | some d =>
    if base = "EUR" ∧ (tableLookup d.rates quote).isSome then
      some ⟨(tableLookup d.rates quote).getD 0, d.date, "ECB"⟩
    else if quote = "EUR" ∧ (tableLookup d.rates base).isSome then
      some ⟨1 / (tableLookup d.rates base).getD 0, d.date, "ECB"⟩
    else if (tableLookup d.rates base).isSome ∧ (tableLookup d.rates quote).isSome then
      some ⟨(tableLookup d.rates quote).getD 0 / (tableLookup d.rates base).getD 0,
            d.date, "ECB (cross)"⟩
    else none

/-! ## FRED series (rates.py, `get_fred_rate` and `get_fred_history`) -/

structure SeriesInfo where
  series : String
  invert : Bool
deriving Repr, DecidableEq

/-- The static `FRED_SERIES` mapping of rates.py lines 40-60. -/
def FRED_SERIES : List ((String × String) × SeriesInfo) :=
  [ (("USD", "EUR"), ⟨"DEXUSEU", true⟩)
  , (("USD", "GBP"), ⟨"DEXUSUK", true⟩)
  , (("USD", "JPY"), ⟨"DEXJPUS", false⟩)
  , (("USD", "CHF"), ⟨"DEXSZUS", false⟩)
  , (("USD", "CAD"), ⟨"DEXCAUS", false⟩)
  , (("USD", "AUD"), ⟨"DEXUSAL", true⟩)
  , (("USD", "NZD"), ⟨"DEXUSNZ", true⟩)
  , (("USD", "SEK"), ⟨"DEXSDUS", false⟩)
  , (("USD", "NOK"), ⟨"DEXNOUS", false⟩)
  , (("USD", "DKK"), ⟨"DEXDNUS", false⟩)
  , (("USD", "MXN"), ⟨"DEXMXUS", false⟩)
  , (("USD", "BRL"), ⟨"DEXBZUS", false⟩)
  , (("USD", "CNY"), ⟨"DEXCHUS", false⟩)
  , (("USD", "INR"), ⟨"DEXINUS", false⟩)
  , (("USD", "KRW"), ⟨"DEXKOUS", false⟩)
  , (("USD", "SGD"), ⟨"DEXSIUS", false⟩)
  , (("USD", "HKD"), ⟨"DEXHKUS", false⟩)
  , (("USD", "ZAR"), ⟨"DEXSFUS", false⟩) ]

/-- The shared lookup preamble of `get_fred_rate` and `get_fred_history`:
try `(base, quote)` directly, else `(quote, base)` setting `is_inverse`. -/
def fredSeriesLookup (base quote : String) : Option (SeriesInfo × Bool) :=
  match FRED_SERIES.find? (fun p => p.1 == (base, quote)) with
  | some p => some (p.2, false)
  | none =>
    match FRED_SERIES.find? (fun p => p.1 == (quote, base)) with
    | some p => some (p.2, true)
    | none => none

/-- The inversion ladder applied to a raw observation value: `rate = raw`;
`if series_info["invert"]: rate = 1.0 / rate`; `if is_inverse:
rate = 1.0 / rate`. -/
def applyInversions (invert is_inverse : Bool) (raw : ℚ) : ℚ :=
  let r := raw
  let r := if invert then 1 / r else r
  if is_inverse then 1 / r else r

/-- One FRED observation; `value = none` encodes the `"."` missing-value
sentinel. -/
structure FredObs where
  date : String
  value : Option ℚ
deriving Repr, DecidableEq

/-- `get_fred_rate` (rates.py lines 143-229).  `cacheHit` is the fresh cached
raw observation when one exists, `outcome` the FRED HTTP call otherwise (body:
the decoded `observations` list, latest first). -/
def get_fred_rate (apiKey : String) (base quote : String)
    (cacheHit : Option (ℚ × String)) (outcome : HttpOutcome (List FredObs)) :
    Option RateQuote :=
  if apiKey = "" then none
  else
    match fredSeriesLookup base quote with
    | none => none
    | some (si, is_inverse) =>
      match cacheHit with
      | some (raw, d) => some ⟨applyInversions si.invert is_inverse raw, d, "FRED"⟩
      | none =>
        match outcome with
        | .exn => none
        | .response s obs =>
          if s = 200 then
            match obs with
            | o :: _ =>
              match o.value with
              | some raw =>
                some ⟨applyInversions si.invert is_inverse raw, o.date, "FRED"⟩
              | none => none
            | [] => none
          else none

/-- The observation loop of `get_fred_history` (rates.py lines 351-364):
missing-value sentinels are filtered out, every surviving raw value goes
through the same inversion ladder. -/
def fredHistoryObs (invert is_inverse : Bool) (obs : List FredObs) :
    List (String × ℚ) :=
  obs.filterMap (fun o =>
    o.value.map (fun raw => (o.date, applyInversions invert is_inverse raw)))

/-- `get_fred_history` (rates.py lines 309-371): unavailable without an API
key, without a mapping, on a raised exception, on a non-200 status, or when
the filtered history comes out empty (`return history if history else None`). -/
def get_fred_history (apiKey : String) (base quote : String)
    (outcome : HttpOutcome (List FredObs)) : Option (List (String × ℚ)) :=
  if apiKey = "" then none
  else
    match fredSeriesLookup base quote with
    | none => none
    | some (si, is_inverse) =>
      match outcome with
      | .exn => none
      | .response s obs =>
        if s = 200 then
          let history := fredHistoryObs si.invert is_inverse obs
          if history.isEmpty then none else some history
        else none

/-! ## History endpoint (rates.py, `get_history`) -/

/-- Python truthiness of an optional list (`None` and `[]` are falsy). -/
def optListTruthy {α : Type} : Option (List α) → Bool
  | none => false
  | some l => !l.isEmpty

structure HistSummary where
  open_ : ℚ
  close : ℚ
  data : List (String × ℚ)
deriving Repr, DecidableEq

/-- The JSON object built by `get_history`.  `ecb_history = some x` means the
key was set (to `x`, possibly null); in the FRED branch it is set
unconditionally, in the ECB branch never.  `fred_history` is set only when the
FRED series is truthy. -/
structure HistResult where
  source : String
  daily : HistSummary
  threeMonth : HistSummary
  ecb_history : Option (Option (List (String × ℚ)))
  fred_history : Option (List (String × ℚ))
deriving Repr, DecidableEq

/-- `primary_history[-5:] if len(primary_history) >= 5 else primary_history`. -/
def lastFive {α : Type} (l : List α) : List α :=
  if l.length ≥ 5 then l.drop (l.length - 5) else l

/-- Open/close/data summary over a slice (`daily_data[0]["rate"]` or 0,
`daily_data[-1]["rate"]` or 0). -/
def mkSummary (l : List (String × ℚ)) : HistSummary :=
  ⟨((l.head?).map (fun p => p.2)).getD 0, ((l.getLast?).map (fun p => p.2)).getD 0, l⟩

/-- `get_history` (rates.py lines 374-450) after both fetches: chooses the
primary series (`if is_usd_base and fred_history`), attaches the other as
secondary, and 503s when the chosen primary series is falsy. -/
def get_history (base : String) (ecb_history fred_history : Option (List (String × ℚ))) :
    Except Unit HistResult :=
  let is_usd_base := base = "USD"
  let useFred := is_usd_base ∧ optListTruthy fred_history = true
  let primary_history := if useFred then fred_history else ecb_history
  match primary_history with
  | some l =>
    if l.isEmpty then .error ()
    else
      .ok { source := if useFred then "FRED" else "ECB"
          , daily := mkSummary (lastFive l)
          , threeMonth := mkSummary l
          , ecb_history := if useFred then some ecb_history else none
          , fred_history :=
              if useFred then none
              else if optListTruthy fred_history then fred_history else none }
  | none => .error ()

/-! ## Interest rates (interest.py) -/

structure InterestInfo where
  rate : ℚ
  bank : String
  last_change : String
  last_decision : String
  previous_rate : ℚ
deriving Repr, DecidableEq

/-- The static `INTEREST_RATES` table of interest.py lines 13-175. -/
def INTEREST_RATES : List (String × InterestInfo) :=
  [ ("USD", ⟨4.25, "Federal Reserve", "2025-12-18", "down", 4.50⟩)
  , ("EUR", ⟨2.75, "European Central Bank", "2025-12-12", "down", 3.00⟩)
  , ("GBP", ⟨4.50, "Bank of England", "2025-11-07", "down", 4.75⟩)
  , ("JPY", ⟨0.50, "Bank of Japan", "2025-12-19", "up", 0.25⟩)
  , ("CHF", ⟨0.25, "Swiss National Bank", "2025-12-12", "down", 0.50⟩)
  , ("AUD", ⟨4.10, "Reserve Bank of Australia", "2025-11-05", "down", 4.35⟩)
  , ("CAD", ⟨3.00, "Bank of Canada", "2025-12-11", "down", 3.25⟩)
  , ("NZD", ⟨3.75, "Reserve Bank of New Zealand", "2025-11-27", "down", 4.25⟩)
  , ("SEK", ⟨2.25, "Sveriges Riksbank", "2025-12-19", "down", 2.50⟩)
  , ("NOK", ⟨4.50, "Norges Bank", "2024-12-19", "unchanged", 4.50⟩)
  , ("DKK", ⟨2.60, "Danmarks Nationalbank", "2025-12-12", "down", 2.85⟩)
  , ("PLN", ⟨5.75, "National Bank of Poland", "2023-10-04", "down", 6.00⟩)
  , ("CZK", ⟨4.00, "Czech National Bank", "2024-11-07", "down", 4.25⟩)
  , ("HUF", ⟨6.50, "Magyar Nemzeti Bank", "2024-09-24", "down", 6.75⟩)
  , ("CNY", ⟨3.00, "People\x27s Bank of China", "2025-10-21", "down", 3.10⟩)
  , ("INR", ⟨6.25, "Reserve Bank of India", "2025-02-07", "down", 6.50⟩)
  , ("MXN", ⟨9.50, "Banco de Mexico", "2025-12-19", "down", 10.00⟩)
  , ("BRL", ⟨13.25, "Central Bank of Brazil", "2025-12-11", "up", 12.25⟩)
  , ("ZAR", ⟨7.50, "South African Reserve Bank", "2025-11-21", "down", 7.75⟩)
  , ("SGD", ⟨3.25, "Monetary Authority of Singapore", "2025-10-14", "down", 3.50⟩)
  , ("HKD", ⟨4.50, "Hong Kong Monetary Authority", "2025-12-19", "down", 4.75⟩)
  , ("KRW", ⟨2.75, "Bank of Korea", "2025-11-28", "down", 3.00⟩)
  , ("TRY", ⟨45.00, "Central Bank of Turkey", "2024-03-21", "up", 42.50⟩) ]

/-- The `default_info` placeholder of `get_interest_rates`. -/
def default_info : InterestInfo := ⟨0, "Unknown", "N/A", "unchanged", 0⟩

/-- `INTEREST_RATES.get(c, default_info)`. -/
def interestLookup (c : String) : InterestInfo :=
  ((INTEREST_RATES.find? (fun p => p.1 == c)).map (fun p => p.2)).getD default_info

structure InterestResult where
  base : String
  quote : String
  base_rate : ℚ
  base_bank : String
  base_last_decision : String
  base_last_change : String
  base_days_at_rate : Int
  quote_rate : ℚ
  quote_bank : String
  quote_last_decision : String
  quote_last_change : String
  quote_days_at_rate : Int
  differential : ℚ
deriving Repr, DecidableEq

/-- `get_interest_rates` (interest.py lines 185-220).  `daysAt` abstracts
`calculate_days_at_rate` (a pure day count from the wall clock, irrelevant to
the rate fields). -/
def get_interest_rates (daysAt : String → Int) (base quote : String) :
    InterestResult :=
  let base_info := interestLookup base
  let quote_info := interestLookup quote
  let base_days := if base_info.last_change ≠ "N/A" then daysAt base_info.last_change else 0
  let quote_days := if quote_info.last_change ≠ "N/A" then daysAt quote_info.last_change else 0
  { base := base, quote := quote
  , base_rate := base_info.rate, base_bank := base_info.bank
  , base_last_decision := base_info.last_decision
  , base_last_change := base_info.last_change
  , base_days_at_rate := base_days
  , quote_rate := quote_info.rate, quote_bank := quote_info.bank
  , quote_last_decision := quote_info.last_decision
  , quote_last_change := quote_info.last_change
  , quote_days_at_rate := quote_days
  , differential := base_info.rate - quote_info.rate }

/-! ## AI analysis (ai.py) -/

structure SourceRef where
  name : String
  url : String
deriving Repr, DecidableEq

structure TermAnalysis where
  trend : String
  summary : String
  details : String
  sources : List SourceRef
deriving Repr, DecidableEq

structure Analysis where
  shortTerm : TermAnalysis
  longTerm : TermAnalysis
deriving Repr, DecidableEq

/-- `get_mock_analysis` (ai.py lines 285-304), the fixed fallback payload. -/
def get_mock_analysis : Analysis :=
  { shortTerm :=
    { trend := "Neutral"
    , summary := "Market conditions suggest a consolidation phase in the short term. Watch for upcoming economic data releases."
    , details := "The currency pair is currently trading within a defined range. Key factors to monitor include central bank communications, employment data, and inflation figures. The interest rate differential provides some support, but market sentiment remains cautious ahead of major economic releases."
    , sources := [⟨"Market Analysis (Demo)", "https://example.com"⟩] }
  , longTerm :=
    { trend := "Neutral"
    , summary := "Medium-term outlook depends on monetary policy divergence between the two central banks."
    , details := "Over the next 1-3 months, the direction will likely be determined by central bank policy decisions and economic growth differentials. Current interest rate spreads suggest potential for carry trade flows, but geopolitical factors and global risk appetite will also play significant roles in determining the trend."
    , sources := [⟨"Economic Outlook (Demo)", "https://example.com"⟩] } }

/-- Outcome of one Anthropic API call: a raised exception, or a response with
a status code and the result of JSON-extracting the returned text
(`none` when `json.loads` raises `JSONDecodeError`). -/
inductive ClaudeCall where
  | exn
  | response (status : Nat) (parsed : Option Analysis)
deriving Repr, DecidableEq

/-- `call_claude_api_simple` (ai.py lines 307-357): missing key, raised
exception, non-200 status and unparseable content all resolve to the mock
payload; a parseable 200 returns the parsed analysis. -/
def call_claude_api_simple (apiKey : String) (call : ClaudeCall) : Analysis :=
  if apiKey = "" then get_mock_analysis
  else
    match call with
    | .exn => get_mock_analysis
    | .response s parsed =>
      if s = 200 then parsed.getD get_mock_analysis else get_mock_analysis

/-- `call_claude_api_with_search` (ai.py lines 158-282): same recovery shape;
`researchExn` records whether the research call raised (a non-200 research
status only skips the research text and does not fail the call). -/
def call_claude_api_with_search (apiKey : String) (researchExn : Bool)
    (finalCall : ClaudeCall) : Analysis :=
  if apiKey = "" then get_mock_analysis
  else if researchExn then get_mock_analysis
  else
    match finalCall with
    | .exn => get_mock_analysis
    | .response s parsed =>
      if s = 200 then parsed.getD get_mock_analysis else get_mock_analysis

/-- `INTEREST_RATES.get(c, \x7b\x7d).get("rate", 0)` as used by
`get_market_context`. -/
def interestRateOrZero (c : String) : ℚ :=
  ((INTEREST_RATES.find? (fun p => p.1 == c)).map (fun p => p.2.rate)).getD 0

structure MarketContext where
  pair : String
  current_rate : Option ℚ
  base_interest_rate : ℚ
  quote_interest_rate : ℚ
  interest_differential : ℚ
  timestamp : String
deriving Repr, DecidableEq

/-- `get_market_context` (ai.py lines 31-53): the spot-rate call sits in a
bare `try/except`, so a failing `get_current_rate` leaves `rate = None`. -/
def get_market_context (spot : Except Unit SpotResult) (base quote ts : String) :
    MarketContext :=
  let rate : Option ℚ :=
    match spot with
    | .ok r => some r.rate
    | .error _ => none
  { pair := base ++ "/" ++ quote
  , current_rate := rate
  , base_interest_rate := interestRateOrZero base
  , quote_interest_rate := interestRateOrZero quote
  , interest_differential := interestRateOrZero base - interestRateOrZero quote
  , timestamp := ts }

structure AiParams where
  short_term_focus : String
  long_term_focus : String
  style : String
  depth : String
  sources : String
  use_web_search : Bool
deriving Repr, DecidableEq

/-- Python `f"\x7buse_web_search\x7d"` on a bool. -/
def pyBoolStr (b : Bool) : String := if b then "True" else "False"

/-- The string whose Python `hash` becomes `settings_hash` (ai.py line 377):
the six customization parameters concatenated with no separator. -/
def settingsKeyString (p : AiParams) : String :=
  p.short_term_focus ++ p.long_term_focus ++ p.style ++ p.depth ++ p.sources
    ++ pyBoolStr p.use_web_search

/-- The AI cache key `f"\x7bbase\x7d_\x7bquote\x7d_\x7bsettings_hash\x7d"`
(ai.py line 378).  Python hashes `settingsKeyString` first; since `hash` is a
function, equal strings give equal hashes, so this pre-hash model distinguishes
cache keys at least as finely as the code does: any key collision provable
here is a key collision in the code. -/
def aiCacheKey (base quote : String) (p : AiParams) : String :=
  base ++ "_" ++ quote ++ "_" ++ settingsKeyString p

/-- `analyze_pair` (ai.py lines 360-410): fresh cache hit short-circuits;
otherwise the market context is gathered, one of the two Claude entry points
runs, and the result is cached under the computed key.  Returns the response
payload and the updated cache. -/
def analyze_pair (cache : List (String × CacheEntry Analysis)) (now : Nat)
    (apiKey : String) (researchExn : Bool) (call : ClaudeCall)
    (spot : Except Unit SpotResult) (base quote ts : String) (p : AiParams) :
    Analysis × List (String × CacheEntry Analysis) :=
  let cache_key := aiCacheKey base quote p
  match cacheGet cache cache_key now ai_cache_ttl with
  | some a => (a, cache)
  | none =>
    let _context := get_market_context spot base quote ts
    let analysis :=
      if p.use_web_search then call_claude_api_with_search apiKey researchExn call
      else call_claude_api_simple apiKey call
    (analysis, (cache_key, ⟨analysis, now⟩) :: cache)

/-! ## Theorems -/

/-- C1: the spec invariant says an entry whose age is at least the TTL is
never returned, for arbitrarily large ages including ages exceeding one day.
The code tests `(now - cached_at).seconds < ttl`, and `.seconds` is the age
modulo 86400, so a spot-rate entry inserted exactly one day ago (age 86400 s,
far beyond the 300 s TTL) is served from the cache even though every upstream
source is down.  The same freshness test guards all four caches. -/
theorem ttl_cache_serves_expired_entry :
    cache_ttl ≤ 86400 - 0 ∧
    get_current_rate
        [("EUR_USD", ⟨⟨"EUR", "USD", 108/100, "t0", "Frankfurter (ECB)"⟩, 0⟩)]
        86400 ⟨"demo", .exn, .exn⟩ "EUR" "USD" "t1" =
      .ok (⟨"EUR", "USD", 108/100, "t0", "Frankfurter (ECB)"⟩,
        [("EUR_USD", ⟨⟨"EUR", "USD", 108/100, "t0", "Frankfurter (ECB)"⟩, 0⟩)]) := by
  exact ⟨by norm_num [cache_ttl], rfl⟩

/-- C2 counterexample: with a real key configured, a raised network error in
the commercial call jumps to the `except` clause and the 503 without ever
trying the free-mirror adapter, even though the free mirror would succeed
(here: a 200 response carrying a rate).  The claim says the free-mirror quote
must become primary in this situation. -/
theorem spot_fallback_counterexample :
    (⟨"realkey", .exn, .response 200 (some (108/100))⟩ : SpotEnv).exchange_rate_api_key ≠ "demo" ∧
    get_current_rate_net ⟨"realkey", .exn, .response 200 (some (108/100))⟩ "EUR" "USD" "t" =
      .error () := by
  exact ⟨by decide, rfl⟩

/-- C2 (amended): the free-mirror quote becomes primary, labeled
`"Frankfurter (ECB)"`, whenever the commercial adapter yields no value
without raising — that is, the key is missing/demo or the commercial response
has a non-success status — and the free mirror responds 200; a raised
exception during the commercial call instead aborts the whole lookup with
503. -/
theorem spot_fallback_amended (env : SpotEnv) (base quote ts : String) (v : Option ℚ)
    (hcomm : env.exchange_rate_api_key = "demo" ∨
             ∃ s b, env.commercial = .response s b ∧ s ≠ 200)
    (hfrank : env.frankfurter = .response 200 v) :
    get_current_rate_net env base quote ts =
      .ok ⟨base, quote, v.getD 0, ts, "Frankfurter (ECB)"⟩ := by
  unfold get_current_rate_net frankfurterFetch
  by_cases hk : env.exchange_rate_api_key = "demo"
  · simp [hk, hfrank]
  · rcases hcomm with h | ⟨s, b, hc, hs⟩
    · exact absurd h hk
    · simp [hk, hc, hs, hfrank]

/-- Witness for the amended C2 statement at a concrete environment. -/
theorem spot_fallback_amended_witness :
    get_current_rate_net ⟨"demo", .exn, .response 200 (some (108/100))⟩ "EUR" "USD" "t" =
      .ok ⟨"EUR", "USD", 108/100, "t", "Frankfurter (ECB)"⟩ :=
  spot_fallback_amended ⟨"demo", .exn, .response 200 (some (108/100))⟩ "EUR" "USD" "t"
    (some (108/100)) (Or.inl rfl) rfl

/-- C8 counterexample: a successful spot-rate call can return rate 0, which is
not positive: the Frankfurter fallback uses `data["rates"].get(quote, 0)`, so
a 200 response whose rates object lacks the quote currency yields a primary
quote with rate 0. -/
theorem rate_positivity_counterexample :
    get_current_rate_net ⟨"demo", .exn, .response 200 none⟩ "EUR" "XYZ" "t" =
      .ok ⟨"EUR", "XYZ", 0, "t", "Frankfurter (ECB)"⟩ ∧ ¬ (0:ℚ) > 0 :=
  ⟨rfl, lt_irrefl 0⟩

/-- C8 (amended): the returned rate is exactly the value taken from the
upstream response body, so it is positive whenever the upstream value used is
positive; the code itself never checks positivity, and the free-mirror path
substitutes 0 when the quote key is absent from the response. -/
theorem rate_positivity_amended (env : SpotEnv) (base quote ts : String) (r : SpotResult)
    (hcomm : ∀ s b, env.commercial = .response s b → 0 < b)
    (hfrank : ∀ s b, env.frankfurter = .response s b → ∃ v, b = some v ∧ 0 < v)
    (hok : get_current_rate_net env base quote ts = .ok r) :
    0 < r.rate := by
  have hfr : ∀ r', frankfurterFetch env base quote ts = .ok r' → 0 < r'.rate := by
    intro r' h
    unfold frankfurterFetch at h
    cases hf : env.frankfurter with
    | exn => rw [hf] at h; cases h
    | response s body =>
      rw [hf] at h
      dsimp only at h
      split at h
      · cases h
        obtain ⟨v, hv, hvpos⟩ := hfrank s body hf
        simpa [hv] using hvpos
      · cases h
  unfold get_current_rate_net at hok
  by_cases hk : env.exchange_rate_api_key = "demo"
  · rw [if_neg (not_not_intro hk)] at hok
    exact hfr r hok
  · rw [if_pos hk] at hok
    cases hc : env.commercial with
    | exn => rw [hc] at hok; cases hok
    | response s body =>
      rw [hc] at hok
      dsimp only at hok
      split at hok
      · cases hok
        simpa using hcomm s body hc
      · exact hfr r hok

/-- Witness for the amended C8 statement at a concrete environment. -/
theorem rate_positivity_amended_witness :
    (0:ℚ) < (⟨"EUR", "USD", 108/100, "t", "Frankfurter (ECB)"⟩ : SpotResult).rate :=
  rate_positivity_amended ⟨"demo", .exn, .response 200 (some (108/100))⟩ "EUR" "USD" "t" _
    (fun _ _ h => nomatch h)
    (fun s b h => by
      injection h with h1 h2
      exact ⟨108/100, h2.symm, by norm_num⟩)
    rfl

/-- C5: ECB pair resolution, in evaluation order: base EUR gives the table
entry for the quote; else quote EUR gives the reciprocal of the table entry
for the base; else both present gives the cross rate table[quote]/table[base],
whose product with the opposite-direction cross rate is 1; else the adapter is
unavailable. -/
theorem ecb_pair_resolution (d : EcbData) (base quote : String) :
    (∀ rq, base = "EUR" → tableLookup d.rates quote = some rq →
       get_ecb_rate (some d) base quote = some ⟨rq, d.date, "ECB"⟩) ∧
    (∀ rb, base ≠ "EUR" → quote = "EUR" → tableLookup d.rates base = some rb →
       get_ecb_rate (some d) base quote = some ⟨1 / rb, d.date, "ECB"⟩) ∧
    (∀ rb rq, base ≠ "EUR" → quote ≠ "EUR" →
       tableLookup d.rates base = some rb → tableLookup d.rates quote = some rq →
       get_ecb_rate (some d) base quote = some ⟨rq / rb, d.date, "ECB (cross)"⟩ ∧
       get_ecb_rate (some d) quote base = some ⟨rb / rq, d.date, "ECB (cross)"⟩ ∧
       (rb ≠ 0 → rq ≠ 0 → (rq / rb) * (rb / rq) = 1)) ∧
    (¬(base = "EUR" ∧ (tableLookup d.rates quote).isSome) →
     ¬(quote = "EUR" ∧ (tableLookup d.rates base).isSome) →
     ¬((tableLookup d.rates base).isSome ∧ (tableLookup d.rates quote).isSome) →
       get_ecb_rate (some d) base quote = none) := by
  refine ⟨?_, ?_, ?_, ?_⟩
  · intro rq hb hq
    simp [get_ecb_rate, hb, hq]
  · intro rb hb hq hrb
    simp [get_ecb_rate, hb, hq, hrb]
  · intro rb rq hb hq hrb hrq
    refine ⟨by simp [get_ecb_rate, hb, hq, hrb, hrq],
            by simp [get_ecb_rate, hb, hq, hrb, hrq], ?_⟩
    intro hb0 hq0
    field_simp
  · intro h1 h2 h3
    simp only [get_ecb_rate]
    rw [if_neg (by simpa using h1), if_neg (by simpa using h2),
        if_neg (by simpa using h3)]

/-- Witness for C5 at a concrete three-entry table: the USD/GBP cross rate and
the unit product of the two directions. -/
theorem ecb_pair_resolution_witness :
    get_ecb_rate (some ⟨[("EUR", 1), ("USD", 27/25), ("GBP", 17/20)], "d"⟩) "USD" "GBP" =
      some ⟨(17/20) / (27/25), "d", "ECB (cross)"⟩ ∧
    ((17/20 : ℚ) / (27/25)) * ((27/25) / (17/20)) = 1 := by
  have h := (ecb_pair_resolution ⟨[("EUR", 1), ("USD", 27/25), ("GBP", 17/20)], "d"⟩
    "USD" "GBP").2.2.1 (27/25) (17/20) (by decide) (by decide) rfl rfl
  exact ⟨h.1, h.2.2 (by norm_num) (by norm_num)⟩

/-- C4: the FRED inversion ladder applies exactly 0 or 1 net inversions: a
directly-mapped pair delivers the raw value, inverted iff the mapping says
`invert`; a mirror-key lookup adds one more inversion, so with `invert = true`
the two cancel and the delivered rate is the raw value; and the history path
applies the same ladder to every kept observation. -/
theorem fred_inversion_rule (apiKey base quote : String) (si : SeriesInfo)
    (raw : ℚ) (d : String) (obs : List FredObs) (inv isInv : Bool)
    (hkey : apiKey ≠ "") (_hraw : raw ≠ 0) :
    (applyInversions inv isInv raw = if inv = isInv then raw else 1 / raw) ∧
    (fredSeriesLookup base quote = some (si, false) →
       get_fred_rate apiKey base quote (some (raw, d)) .exn =
         some ⟨if si.invert then 1 / raw else raw, d, "FRED"⟩) ∧
    (fredSeriesLookup base quote = some (si, true) → si.invert = true →
       get_fred_rate apiKey base quote (some (raw, d)) .exn =
         some ⟨raw, d, "FRED"⟩) ∧
    (∀ o : FredObs, o ∈ obs → o.value = some raw →
       (o.date, applyInversions inv isInv raw) ∈ fredHistoryObs inv isInv obs) := by
  refine ⟨?_, ?_, ?_, ?_⟩
  · cases inv <;> cases isInv <;> simp [applyInversions, one_div_one_div]
  · intro hlook
    cases hi : si.invert <;>
      simp [get_fred_rate, hkey, hlook, applyInversions, hi]
  · intro hlook hinv
    simp [get_fred_rate, hkey, hlook, applyInversions, hinv, one_div_one_div]
  · intro o ho hv
    exact List.mem_filterMap.mpr ⟨o, ho, by rw [hv]; rfl⟩

/-- Witness for C4 at the mirrored EUR/USD lookup (DEXUSEU, invert true): the
two inversions cancel and the cached raw value 2 is delivered unchanged. -/
theorem fred_inversion_rule_witness :
    get_fred_rate "key" "EUR" "USD" (some (2, "d")) .exn =
      some ⟨2, "d", "FRED"⟩ :=
  (fred_inversion_rule "key" "EUR" "USD" ⟨"DEXUSEU", true⟩ 2 "d" [] true true
    (by decide) (by norm_num)).2.2.1 (by decide) rfl

/-- C3 counterexample: USD/JPY is in the FRED mapping, yet when the FRED
series cannot be obtained (here: no FRED key, so `get_fred_history` is `None`)
and the ECB series is available, the endpoint returns the ECB series as
primary instead of failing with 503 as the claim requires for a mapped
USD-based pair. -/
theorem history_primary_counterexample :
    (fredSeriesLookup "USD" "JPY").isSome = true ∧
    get_fred_history "" "USD" "JPY" .exn = none ∧
    get_history "USD" (some [("2026-01-02", 157)]) none =
      .ok { source := "ECB"
          , daily := ⟨157, 157, [("2026-01-02", 157)]⟩
          , threeMonth := ⟨157, 157, [("2026-01-02", 157)]⟩
          , ecb_history := none
          , fred_history := none } := by
  exact ⟨by decide, rfl, rfl⟩

/-- C3 (amended): the FRED series is primary iff the base is USD and the FRED
series was actually obtained (non-empty) — a mapped pair whose FRED fetch
fails falls back to the ECB series as primary rather than to 503; in the FRED
branch the ECB series is attached unconditionally as secondary, in the ECB
branch the FRED series is attached when available; and the call fails with
503 exactly when the selected primary series is absent or empty, even when a
secondary series exists. -/
theorem history_primary_amended (base : String)
    (ecb fred : Option (List (String × ℚ))) :
    (get_history base ecb fred = .error () ↔
       ¬(base = "USD" ∧ optListTruthy fred = true) ∧ optListTruthy ecb = false) ∧
    (∀ r, get_history base ecb fred = .ok r →
       (r.source = "FRED" ↔ base = "USD" ∧ optListTruthy fred = true) ∧
       (base = "USD" ∧ optListTruthy fred = true → r.ecb_history = some ecb) ∧
       (¬(base = "USD" ∧ optListTruthy fred = true) →
          r.fred_history = if optListTruthy fred = true then fred else none)) := by
  by_cases hb : base = "USD" <;>
    rcases fred with _ | (_ | ⟨f, ftl⟩) <;>
    rcases ecb with _ | (_ | ⟨e, etl⟩) <;>
    simp [get_history, optListTruthy, hb]

/-- Witness for the amended C3 statement: with a non-USD base and an available
ECB series the call does not 503. -/
theorem history_primary_amended_witness :
    get_history "EUR" (some [("2026-01-02", 1)]) none ≠ .error () := by
  intro he
  have h := (history_primary_amended "EUR" (some [("2026-01-02", 1)]) none).1.mp he
  simpa [optListTruthy] using h.2

/-- C9: the interest-rate endpoint returns differential = base rate minus
quote rate from the static table, an absent code contributing rate 0 via the
zero-valued placeholder record, as in the two spec examples USD/JPY and
XXX/USD; the endpoint is a total function of its inputs and never errors. -/
theorem interest_differential_rule (daysAt : String → Int) (base quote : String) :
    (get_interest_rates daysAt base quote).differential =
      (interestLookup base).rate - (interestLookup quote).rate ∧
    (∀ c, INTEREST_RATES.find? (fun p => p.1 == c) = none →
       interestLookup c = default_info ∧ (interestLookup c).rate = 0) ∧
    (get_interest_rates daysAt "USD" "JPY").differential = 4.25 - 0.50 ∧
    (get_interest_rates daysAt "XXX" "USD").differential = 0 - 4.25 ∧
    (get_interest_rates daysAt "XXX" "USD").base_bank = "Unknown" := by
  refine ⟨rfl, ?_, by rfl, by rfl, rfl⟩
  intro c h
  simp [interestLookup, h, default_info]

/-- Witness for C9 at a concrete day counter. -/
theorem interest_differential_rule_witness :
    (get_interest_rates (fun _ => 0) "USD" "JPY").differential = 4.25 - 0.50 :=
  (interest_differential_rule (fun _ => 0) "USD" "JPY").2.2.1

/-- C6: every failure mode of the generative-text call — missing API key,
raised exception, non-200 status, or 200 with unparseable JSON — makes both
Claude entry points return the fixed fallback payload, whose shortTerm and
longTerm trends are both "Neutral"; on a cache miss the analyze endpoint then
responds (with status 200, the handler raising nothing) carrying exactly that
payload. -/
theorem ai_total_recovery (apiKey : String) (call : ClaudeCall) (researchExn : Bool)
    (hfail : apiKey = "" ∨ call = ClaudeCall.exn ∨
             ∃ s parsed, call = ClaudeCall.response s parsed ∧ (s ≠ 200 ∨ parsed = none)) :
    call_claude_api_simple apiKey call = get_mock_analysis ∧
    call_claude_api_with_search apiKey researchExn call = get_mock_analysis ∧
    get_mock_analysis.shortTerm.trend = "Neutral" ∧
    get_mock_analysis.longTerm.trend = "Neutral" ∧
    (∀ cache now spot base quote ts p,
       cacheGet cache (aiCacheKey base quote p) now ai_cache_ttl = none →
       (analyze_pair cache now apiKey researchExn call spot base quote ts p).1 =
         get_mock_analysis) := by
  have hsimple : call_claude_api_simple apiKey call = get_mock_analysis := by
    rcases hfail with h | h | ⟨s, parsed, hc, h⟩
    · simp [call_claude_api_simple, h]
    · simp [call_claude_api_simple, h]
    · rcases h with h | h <;> simp [call_claude_api_simple, hc, h]
  have hsearch : call_claude_api_with_search apiKey researchExn call = get_mock_analysis := by
    rcases hfail with h | h | ⟨s, parsed, hc, h⟩
    · simp [call_claude_api_with_search, h]
    · cases researchExn <;> simp [call_claude_api_with_search, h]
    · cases researchExn <;>
        rcases h with h | h <;>
        simp [call_claude_api_with_search, hc, h]
  refine ⟨hsimple, hsearch, rfl, rfl, ?_⟩
  intro cache now spot base quote ts p hmiss
  rw [analyze_pair]
  rw [hmiss]
  cases hw : p.use_web_search <;> simp [hw, hsimple, hsearch]

/-- Witness for C6 with no API key configured. -/
theorem ai_total_recovery_witness :
    call_claude_api_simple "" ClaudeCall.exn = get_mock_analysis ∧
    (analyze_pair [] 0 "" false ClaudeCall.exn (Except.error ()) "EUR" "USD" "t"
       ⟨"", "", "balanced", "standard", "interest_rates,central_banks,economic,technical",
        false⟩).1 = get_mock_analysis := by
  have h := ai_total_recovery "" ClaudeCall.exn false (Or.inl rfl)
  exact ⟨h.1, h.2.2.2.2 [] 0 (Except.error ()) "EUR" "USD" "t" _ rfl⟩

/-- C10: a spot-rate failure does not fail, and does not change, the analyze
pipeline: `get_market_context` swallows the 503 and records a null market
rate, and on a cache miss the analyze response equals what it would be had the
spot-rate call succeeded. -/
theorem ai_survives_spot_failure (cache : List (String × CacheEntry Analysis))
    (now : Nat) (apiKey : String) (researchExn : Bool) (call : ClaudeCall)
    (base quote ts : String) (p : AiParams) (spot : Except Unit SpotResult)
    (hmiss : cacheGet cache (aiCacheKey base quote p) now ai_cache_ttl = none) :
    (get_market_context (Except.error ()) base quote ts).current_rate = none ∧
    (analyze_pair cache now apiKey researchExn call (Except.error ()) base quote ts p).1 =
      (analyze_pair cache now apiKey researchExn call spot base quote ts p).1 := by
  refine ⟨rfl, ?_⟩
  rw [analyze_pair, analyze_pair, hmiss]

/-- Witness for C10 on an empty cache, comparing the failed-spot run with a
successful-spot run. -/
theorem ai_survives_spot_failure_witness :
    (get_market_context (Except.error ()) "EUR" "USD" "t").current_rate = none ∧
    (analyze_pair [] 0 "" false ClaudeCall.exn (Except.error ()) "EUR" "USD" "t"
       ⟨"", "", "balanced", "standard", "interest_rates,central_banks,economic,technical",
        false⟩).1 =
    (analyze_pair [] 0 "" false ClaudeCall.exn
       (Except.ok ⟨"EUR", "USD", 108/100, "t", "Frankfurter (ECB)"⟩) "EUR" "USD" "t"
       ⟨"", "", "balanced", "standard", "interest_rates,central_banks,economic,technical",
        false⟩).1 :=
  ai_survives_spot_failure [] 0 "" false ClaudeCall.exn "EUR" "USD" "t"
    ⟨"", "", "balanced", "standard", "interest_rates,central_banks,economic,technical",
     false⟩ (Except.ok ⟨"EUR", "USD", 108/100, "t", "Frankfurter (ECB)"⟩) rfl

/-- C7: the claim says any two analyze requests for the same pair whose
customization parameters differ in any component get different cache keys.
The code hashes the parameters concatenated with no separator, so the two
distinct configurations below (short focus "ab" with empty long focus, versus
short focus "a" with long focus "b") concatenate to the same string and
collide on the same cache key, and the second request is served the analysis
cached for the first. -/
theorem ai_cache_key_collision :
    (⟨"ab", "", "balanced", "standard", "s", false⟩ : AiParams) ≠
      ⟨"a", "b", "balanced", "standard", "s", false⟩ ∧
    aiCacheKey "EUR" "USD" ⟨"ab", "", "balanced", "standard", "s", false⟩ =
      aiCacheKey "EUR" "USD" ⟨"a", "b", "balanced", "standard", "s", false⟩ ∧
    (analyze_pair
        [(aiCacheKey "EUR" "USD" ⟨"ab", "", "balanced", "standard", "s", false⟩,
          ⟨⟨⟨"Bullish", "sA", "dA", []⟩, ⟨"Bearish", "sB", "dB", []⟩⟩, 0⟩)]
        10 "" false ClaudeCall.exn (Except.error ()) "EUR" "USD" "t"
        ⟨"a", "b", "balanced", "standard", "s", false⟩).1 =
      ⟨⟨"Bullish", "sA", "dA", []⟩, ⟨"Bearish", "sB", "dB", []⟩⟩ := by
  refine ⟨by decide, rfl, rfl⟩

end FxSimple
